import Mathlib

set_option linter.unusedVariables false

/-!
# Verification of the HubSpot sync pipeline (src/lib/hubspot-retry.ts, src/lib/hubspot.ts)

A shallow embedding of the Resilient Call Executor (`retryWithBackoff`,
`isRetryableError`, `fetchWithRetry`) and of the Remote Contact Directory
Client (`syncContactToHubSpot`, `getContactByEmail`, `createContact`,
`updateContact`, `addContactToList`, `createHubSpotDeal`,
`logActivityToHubSpot`).

Modelling conventions:
* A JavaScript `Promise` outcome is `Except Error T`: `Except.error` is a
  rejected promise, `Except.ok` a resolved one.  A `fetch` invocation either
  rejects (network failure, or the wrapper's timeout race firing first —
  both appear as `FetchOutcome.reject`) or resolves with a `Response`
  carrying its `ok` flag and parsed JSON body (`FetchOutcome.respond`).
  Note that per WHATWG fetch semantics an HTTP error status (4xx/5xx)
  RESOLVES the promise with `ok = false`; it does not reject.
* The network is an oracle `fetchFn : σ → Request → FetchOutcome × σ` over
  an arbitrary environment state `σ`; every claim quantifies over it or
  instantiates it concretely.
* JSON bodies are modelled by a record `Body` holding exactly the fields the
  TypeScript code reads (`results`, `id`, `message`), each optional;
  an absent field is `none` (JS `undefined`).
* Instrumentation: each wrapped call returns a `RetryTrace` recording the
  number of operation invocations (`attemptsMade`) and the backoff waits
  performed (`delays`, in ms, in order); the sync entry points also return
  these totals so that claims about call counts and elapsed waits are
  statable.
-/

namespace HubSpot

/-- A JavaScript `Error`: only its `message` is ever inspected by the code. -/
structure Error where
  message : String
  deriving Repr, DecidableEq

/-- JS `haystack.includes(needle)` on strings, via the character lists. -/
def hasInfixChars (hay needle : List Char) : Bool :=
  match hay with
  | [] => needle.isEmpty
  | _ :: t => needle.isPrefixOf hay || hasInfixChars t needle

/-- JS `s.includes(pat)`. -/
def stringIncludes (s pat : String) : Bool :=
  hasInfixChars s.toList pat.toList

/-- JS `s.toLowerCase()`, as a character list (ASCII-faithful; kept on
`List Char` so the kernel can evaluate it). -/
def lowerChars (s : String) : List Char :=
  s.toList.map Char.toLower

/-- The fixed retryable patterns of `isRetryableError`
(src/lib/hubspot-retry.ts lines 100-110). -/
def retryablePatterns : List String :=
  ["econnrefused", "enotfound", "etimedout", "timeout after",
   "429", "500", "502", "503", "504"]

/-- Embeds `isRetryableError` (src/lib/hubspot-retry.ts lines 96-113): lowercase the
message and test whether any retryable pattern occurs in it. -/
def isRetryableError (error : Error) : Bool :=
  let message := lowerChars error.message
  retryablePatterns.any (fun pattern => hasInfixChars message pattern.toList)

/-- Embeds `RetryOptions` (src/lib/hubspot-retry.ts lines 9-13); every field
optional, `none` = JS `undefined`.  `maxAttempts` is an `Int` since a caller
may pass any number.  The spread-merge with `DEFAULT_OPTIONS` followed by the
destructuring defaults amounts to `getD` with 3 / 10000 / 2000. -/
structure RetryOptions where
  maxAttempts : Option Int := none
  timeoutMs : Option Nat := none
  initialDelayMs : Option Nat := none
  deriving Repr, DecidableEq

/-- Decidable equality of promise outcomes, for concrete evaluation. -/
instance {ε α : Type} [DecidableEq ε] [DecidableEq α] :
    DecidableEq (Except ε α) := fun x y =>
  match x, y with
  | Except.ok a, Except.ok b =>
    if h : a = b then Decidable.isTrue (by rw [h])
    else Decidable.isFalse (by intro hc; cases hc; exact h rfl)
  | Except.ok _, Except.error _ => Decidable.isFalse (by intro hc; cases hc)
  | Except.error _, Except.ok _ => Decidable.isFalse (by intro hc; cases hc)
  | Except.error a, Except.error b =>
    if h : a = b then Decidable.isTrue (by rw [h])
    else Decidable.isFalse (by intro hc; cases hc; exact h rfl)

/-- Observable outcome of one `retryWithBackoff` run: the settled promise,
the number of times the wrapped operation was invoked, and the backoff waits
performed between attempts (ms, in order). -/
structure RetryTrace (T : Type) where
  result : Except Error T
  attemptsMade : Nat
  delays : List Nat
  deriving Repr, DecidableEq

/-- The retry loop of `retryWithBackoff` (src/lib/hubspot-retry.ts lines
41-88).  `remaining` counts the loop iterations still allowed (initially
`maxAttempts.toNat`), `made` the attempts already made (the TS `attempt`
counter is `made + 1`), `lastError` the TS `lastError` variable, `delays`
the waits performed so far.  The operation is stateful
(`op : σ → Except Error T × σ`), modelling an impure `fn` whose successive
invocations may differ. -/
def retryGo {σ T : Type} (op : σ → Except Error T × σ) (initialDelayMs : Nat) :
    Nat → Nat → Option Error → List Nat → σ → RetryTrace T × σ
  | 0, made, lastError, delays, s =>
      (⟨Except.error (lastError.getD ⟨"Unknown error in retryWithBackoff"⟩),
        made, delays⟩, s)
  | remaining + 1, made, lastError, delays, s =>
      match op s with
      | (Except.ok v, s1) => (⟨Except.ok v, made + 1, delays⟩, s1)
      | (Except.error e, s1) =>
        let isRetryable := isRetryableError e
        let isLastAttempt := remaining == 0
        if isLastAttempt || !isRetryable then
          (⟨Except.error e, made + 1, delays⟩, s1)
        else
          let delayMs := initialDelayMs * 2 ^ made
          retryGo op initialDelayMs remaining (made + 1) (some e)
            (delays ++ [delayMs]) s1

/-- Embeds `retryWithBackoff` (src/lib/hubspot-retry.ts lines 34-89). -/
def retryWithBackoff {σ T : Type} (op : σ → Except Error T × σ)
    (options : RetryOptions := {}) (s : σ) : RetryTrace T × σ :=
  let maxAttempts := options.maxAttempts.getD 3
  let initialDelayMs := options.initialDelayMs.getD 2000
  retryGo op initialDelayMs maxAttempts.toNat 0 none [] s

/-- Unfolding lemma: a successful attempt returns immediately. -/
theorem retryGo_succ_ok {σ T : Type} {op : σ → Except Error T × σ}
    {d n made : Nat} {le : Option Error} {ds : List Nat} {s s1 : σ} {v : T}
    (hop : op s = (Except.ok v, s1)) :
    retryGo op d (n + 1) made le ds s = (⟨Except.ok v, made + 1, ds⟩, s1) := by
  conv_lhs => rw [retryGo]
  rw [hop]

/-- Unfolding lemma: a failing attempt with attempts remaining and a
retryable error waits `d * 2 ^ made` ms and loops. -/
theorem retryGo_succ_err_retry {σ T : Type} {op : σ → Except Error T × σ}
    {d n made : Nat} {le : Option Error} {ds : List Nat} {s s1 : σ}
    {e : Error} (hop : op s = (Except.error e, s1))
    (hr : isRetryableError e = true) (hn : n ≠ 0) :
    retryGo op d (n + 1) made le ds s
      = retryGo op d n (made + 1) (some e) (ds ++ [d * 2 ^ made]) s1 := by
  have hb : (n == 0) = false := by simp [hn]
  conv_lhs => rw [retryGo]
  rw [hop]
  simp [hb, hr]

/-- Unfolding lemma: a failing attempt throws when it is the last one. -/
theorem retryGo_last_err {σ T : Type} {op : σ → Except Error T × σ}
    {d made : Nat} {le : Option Error} {ds : List Nat} {s s1 : σ}
    {e : Error} (hop : op s = (Except.error e, s1)) :
    retryGo op d 1 made le ds s = (⟨Except.error e, made + 1, ds⟩, s1) := by
  conv_lhs => rw [show (1 : Nat) = 0 + 1 from rfl, retryGo]
  rw [hop]
  simp

/-- Unfolding lemma: a failing attempt with a non-retryable error throws
immediately, whatever the number of remaining attempts. -/
theorem retryGo_err_nonretryable {σ T : Type} {op : σ → Except Error T × σ}
    {d n made : Nat} {le : Option Error} {ds : List Nat} {s s1 : σ}
    {e : Error} (hop : op s = (Except.error e, s1))
    (hr : isRetryableError e = false) :
    retryGo op d (n + 1) made le ds s = (⟨Except.error e, made + 1, ds⟩, s1) := by
  conv_lhs => rw [retryGo]
  rw [hop]
  simp [hr]

/-- One element of the `results` array of a v3 search response; the code
reads only `vid` (line 78, `existingContact?.vid`) and — in the remote-state
model — the object also carries its v3 `id`.  Absent fields are `none`. -/
structure ContactObj where
  vid : Option Nat := none
  id : Option Nat := none
  deriving Repr, DecidableEq

/-- A parsed JSON response body, holding exactly the fields the TypeScript
code ever reads: `results` (search), `id` (create / deal create), `message`
(error bodies). -/
structure Body where
  results : Option (List ContactObj) := none
  id : Option Nat := none
  message : Option String := none
  deriving Repr, DecidableEq

/-- The outbound requests of src/lib/hubspot.ts, identified by endpoint and
the payload data relevant to the remote side. -/
inductive Request where
  | search (email : String)
  | create (properties : List (String × String))
  | update (vid : Nat) (properties : List (String × String))
  | listAdd (listId : String) (email : String)
  | dealCreate (properties : List (String × String))
  | noteCreate (properties : List (String × String)) (vid : Nat)
  deriving Repr, DecidableEq

/-- What the code reads off a fetch `Response`: `ok` and the parsed body. -/
structure Response where
  ok : Bool
  body : Body
  deriving Repr, DecidableEq

/-- Outcome of a single `fetch` invocation: the promise rejects (network
error, or the wrapper's timeout race firing first) or resolves with a
response — note an HTTP 4xx/5xx status RESOLVES with `ok = false`. -/
inductive FetchOutcome where
  | reject (e : Error)
  | respond (ok : Bool) (body : Body)
  deriving Repr, DecidableEq

/-- Embeds `fetchWithRetry` (src/lib/hubspot-retry.ts lines 123-129):
`retryWithBackoff(() => fetch(url, options), retryOptions)`.  All call
sites in src/lib/hubspot.ts pass no `retryOptions`, i.e. the defaults. -/
def fetchWithRetry {σ : Type} (fetchFn : σ → Request → FetchOutcome × σ)
    (req : Request) (retryOptions : RetryOptions := {}) (s : σ) :
    RetryTrace Response × σ :=
  retryWithBackoff (fun s0 =>
    match fetchFn s0 req with
    | (FetchOutcome.reject e, s1) => (Except.error e, s1)
    | (FetchOutcome.respond ok body, s1) => (Except.ok ⟨ok, body⟩, s1))
    retryOptions s

/-- The `HubSpotContact` input interface (src/lib/hubspot.ts lines 8-16);
optional fields are `none` when absent.  `customFields` keeps the
`Object.entries` order as an association list. -/
structure HubSpotContact where
  email : String
  firstName : Option String := none
  lastName : Option String := none
  company : Option String := none
  lifecycleStage : Option String := none
  source : Option String := none
  customFields : Option (List (String × String)) := none
  deriving Repr, DecidableEq

/-- The result union `{success, vid?, error?}` returned by the sync entry
point and by `createContact` / `updateContact`. -/
structure SyncResult where
  success : Bool
  vid : Option Nat := none
  error : Option String := none
  deriving Repr, DecidableEq

/-- The result union `{success, error?}` of `addContactToList` and
`logActivityToHubSpot`. -/
structure ApiResult where
  success : Bool
  error : Option String := none
  deriving Repr, DecidableEq

/-- JS `x || dflt` on an optional string: `undefined` and `""` are falsy. -/
def jsOrString (o : Option String) (dflt : String) : String :=
  match o with
  | none => dflt
  | some s => if s.isEmpty then dflt else s

/-- Embeds `getHubSpotApiKey` (src/lib/hubspot.ts lines 41-47); `env` is
`process.env.HUBSPOT_API_KEY` (`none` = unset); `!apiKey` is JS falsiness,
so the empty string also throws. -/
def getHubSpotApiKey (env : Option String) : Except Error String :=
  match env with
  | none => Except.error ⟨"HUBSPOT_API_KEY environment variable is not set"⟩
  | some apiKey =>
    if apiKey.isEmpty then
      Except.error ⟨"HUBSPOT_API_KEY environment variable is not set"⟩
    else
      Except.ok apiKey

/-- The `properties` array built by `syncContactToHubSpot`
(src/lib/hubspot.ts lines 59-73). -/
def buildProperties (contactData : HubSpotContact) : List (String × String) :=
  [("email", contactData.email),
   ("firstname", jsOrString contactData.firstName ""),
   ("lastname", jsOrString contactData.lastName ""),
   ("company", jsOrString contactData.company ""),
   ("lifecyclestage", jsOrString contactData.lifecycleStage "subscriber"),
   ("hs_lead_status", "NEW")]
  ++ contactData.customFields.getD []

/-- Embeds `getContactByEmail` (src/lib/hubspot.ts lines 97-141): POST to the v3
search endpoint through `fetchWithRetry`; a rejected call (caught) and a
non-2xx response both yield `null`; otherwise the first element of
`data.results || []` (or `null` if empty).  Also returns the call's
`RetryTrace` for instrumentation. -/
def getContactByEmail {σ : Type} (fetchFn : σ → Request → FetchOutcome × σ)
    (email apiKey : String) (s : σ) :
    (Option ContactObj × RetryTrace Response) × σ :=
  let (tr, s1) := fetchWithRetry fetchFn (Request.search email) {} s
  match tr.result with
  | Except.error _ => ((none, tr), s1)
  | Except.ok response =>
    if !response.ok then ((none, tr), s1)
    else
      let contacts := response.body.results.getD []
      ((contacts.head?, tr), s1)

/-- Embeds `createContact` (src/lib/hubspot.ts lines 146-185): POST the flat
properties object; a rejected call yields the caught error's message, a
non-2xx response yields `error.message || 'Failed to create contact'`, a
2xx response yields `{success: true, vid: data.id}` — with `vid = none`
when the body has no `id`. -/
def createContact {σ : Type} (fetchFn : σ → Request → FetchOutcome × σ)
    (properties : List (String × String)) (apiKey : String) (s : σ) :
    (SyncResult × RetryTrace Response) × σ :=
  let (tr, s1) := fetchWithRetry fetchFn (Request.create properties) {} s
  match tr.result with
  | Except.error e => ((⟨false, none, some e.message⟩, tr), s1)
  | Except.ok response =>
    if !response.ok then
      ((⟨false, none,
         some (jsOrString response.body.message "Failed to create contact")⟩,
        tr), s1)
    else
      ((⟨true, response.body.id, none⟩, tr), s1)

/-- Embeds `updateContact` (src/lib/hubspot.ts lines 190-229): PATCH scoped to
`vid`; non-2xx yields `error.message || 'Failed to update contact'`; 2xx
yields `{success: true, vid}` echoing the input vid. -/
def updateContact {σ : Type} (fetchFn : σ → Request → FetchOutcome × σ)
    (vid : Nat) (properties : List (String × String)) (apiKey : String)
    (s : σ) : (SyncResult × RetryTrace Response) × σ :=
  let (tr, s1) := fetchWithRetry fetchFn (Request.update vid properties) {} s
  match tr.result with
  | Except.error e => ((⟨false, none, some e.message⟩, tr), s1)
  | Except.ok response =>
    if !response.ok then
      ((⟨false, none,
         some (jsOrString response.body.message "Failed to update contact")⟩,
        tr), s1)
    else
      ((⟨true, some vid, none⟩, tr), s1)

/-- Observable outcome of one `syncContactToHubSpot` run: the returned
result, the total number of fetch invocations made, the backoff waits
performed, and the final environment state. -/
structure SyncOutcome (σ : Type) where
  result : SyncResult
  fetches : Nat
  delays : List Nat
  state : σ
  deriving Repr, DecidableEq

/-- Embeds `syncContactToHubSpot` (src/lib/hubspot.ts lines 52-92).  The outer
try/catch appears as the match on `getHubSpotApiKey` (the only throwing
statement in the model); the branch on the existing contact mirrors
`if (existingContact?.vid)` — a JS truthiness test, false for `null`
lookup results, for objects without `vid`, and for `vid === 0`. -/
def syncContactToHubSpot {σ : Type} (fetchFn : σ → Request → FetchOutcome × σ)
    (env : Option String) (contactData : HubSpotContact) (s : σ) :
    SyncOutcome σ :=
  match getHubSpotApiKey env with
  | Except.error err => ⟨⟨false, none, some err.message⟩, 0, [], s⟩
  | Except.ok apiKey =>
    let properties := buildProperties contactData
    let ((existingContact, tr1), s1) :=
      getContactByEmail fetchFn contactData.email apiKey s
    match existingContact.bind ContactObj.vid with
    | some v =>
      if v != 0 then
        let ((r, tr2), s2) := updateContact fetchFn v properties apiKey s1
        ⟨r, tr1.attemptsMade + tr2.attemptsMade, tr1.delays ++ tr2.delays, s2⟩
      else
        let ((r, tr2), s2) := createContact fetchFn properties apiKey s1
        ⟨r, tr1.attemptsMade + tr2.attemptsMade, tr1.delays ++ tr2.delays, s2⟩
    | none =>
      let ((r, tr2), s2) := createContact fetchFn properties apiKey s1
      ⟨r, tr1.attemptsMade + tr2.attemptsMade, tr1.delays ++ tr2.delays, s2⟩

/-- Embeds `addContactToList` (src/lib/hubspot.ts lines 234-271). -/
def addContactToList {σ : Type} (fetchFn : σ → Request → FetchOutcome × σ)
    (env : Option String) (email listId : String) (s : σ) :
    (ApiResult × RetryTrace Response) × σ :=
  match getHubSpotApiKey env with
  | Except.error err => ((⟨false, some err.message⟩, ⟨Except.error err, 0, []⟩), s)
  | Except.ok apiKey =>
    let (tr, s1) := fetchWithRetry fetchFn (Request.listAdd listId email) {} s
    match tr.result with
    | Except.error e => ((⟨false, some e.message⟩, tr), s1)
    | Except.ok response =>
      if !response.ok then
        ((⟨false,
           some (jsOrString response.body.message "Failed to add contact to list")⟩,
          tr), s1)
      else
        ((⟨true, none⟩, tr), s1)

/-- Input of `createHubSpotDeal` (src/lib/hubspot.ts lines 276-282). -/
structure DealData where
  contactEmail : String
  dealName : String
  dealStage : Option String := none
  dealAmount : Option Nat := none
  properties : Option (List (String × String)) := none
  deriving Repr, DecidableEq

/-- Result union `{success, dealId?, error?}` of `createHubSpotDeal`. -/
structure DealResult where
  success : Bool
  dealId : Option Nat := none
  error : Option String := none
  deriving Repr, DecidableEq

/-- Embeds `createHubSpotDeal` (src/lib/hubspot.ts lines 276-327). -/
def createHubSpotDeal {σ : Type} (fetchFn : σ → Request → FetchOutcome × σ)
    (env : Option String) (data : DealData) (s : σ) :
    (DealResult × RetryTrace Response) × σ :=
  match getHubSpotApiKey env with
  | Except.error err =>
    ((⟨false, none, some err.message⟩, ⟨Except.error err, 0, []⟩), s)
  | Except.ok apiKey =>
    let props :=
      [("dealname", data.dealName),
       ("dealstage", jsOrString data.dealStage "negotiation"),
       ("amount", toString (data.dealAmount.getD 0))]
      ++ data.properties.getD []
    let (tr, s1) := fetchWithRetry fetchFn (Request.dealCreate props) {} s
    match tr.result with
    | Except.error e => ((⟨false, none, some e.message⟩, tr), s1)
    | Except.ok response =>
      if !response.ok then
        ((⟨false, none,
           some (jsOrString response.body.message "Failed to create deal")⟩,
          tr), s1)
      else
        ((⟨true, response.body.id, none⟩, tr), s1)

/-- Input of `logActivityToHubSpot` (src/lib/hubspot.ts lines 332-336). -/
structure ActivityData where
  email : String
  activityType : String
  activityText : String
  deriving Repr, DecidableEq

/-- Embeds `logActivityToHubSpot` (src/lib/hubspot.ts lines 332-386): lookup, then
`if (!contact?.vid)` → `'Contact not found in HubSpot'`; otherwise create
the note; non-2xx yields `error.message || 'Failed to log activity'`. -/
def logActivityToHubSpot {σ : Type} (fetchFn : σ → Request → FetchOutcome × σ)
    (env : Option String) (data : ActivityData) (s : σ) :
    (ApiResult × Nat) × σ :=
  match getHubSpotApiKey env with
  | Except.error err => ((⟨false, some err.message⟩, 0), s)
  | Except.ok apiKey =>
    let ((contact, tr1), s1) := getContactByEmail fetchFn data.email apiKey s
    match contact.bind ContactObj.vid with
    | some v =>
      if v != 0 then
        let (tr2, s2) := fetchWithRetry fetchFn
          (Request.noteCreate
            [("hs_note_body", data.activityText),
             ("hs_activity_type", data.activityType)] v) {} s1
        match tr2.result with
        | Except.error e =>
          ((⟨false, some e.message⟩, tr1.attemptsMade + tr2.attemptsMade), s2)
        | Except.ok response =>
          if !response.ok then
            ((⟨false,
               some (jsOrString response.body.message "Failed to log activity")⟩,
              tr1.attemptsMade + tr2.attemptsMade), s2)
          else
            ((⟨true, none⟩, tr1.attemptsMade + tr2.attemptsMade), s2)
      else
        ((⟨false, some "Contact not found in HubSpot"⟩, tr1.attemptsMade), s1)
    | none =>
      ((⟨false, some "Contact not found in HubSpot"⟩, tr1.attemptsMade), s1)

/-! ## Environment model of the external CRM

The remote contact directory is an external collaborator (spec §2, §6): we
model it with the v3 object semantics the code itself targets — objects are
addressed by an `id` field (the code's own `createContact` reads `data.id`
from the v3 create endpoint, and the repository's test mocks at
src/__tests__/hubspot.test.ts give search results an `id` field, no `vid`).
Search by email returns at most one match (`limit: 1`), the one with the
greatest internal object id (`hs_object_id DESCENDING`); create assigns the
next fresh id and stores the flat properties object's `email` value. -/

/-- A contact stored remotely: its v3 object id and its email. -/
structure RemoteContact where
  rid : Nat
  email : String
  deriving Repr, DecidableEq

/-- The remote directory: stored contacts and the next fresh object id. -/
structure RemoteState where
  contacts : List RemoteContact
  nextId : Nat
  deriving Repr, DecidableEq

/-- Reading key `key` from the flat object that
`createContact` builds with its reduce-with-spread over `properties`:
the LAST pair with a given key wins (object spread overwrites). -/
def flatProp (props : List (String × String)) (key : String) : Option String :=
  (props.filter (fun p => p.1 == key)).getLast?.map Prod.snd

/-- The match with the greatest object id (v3 search with
`sorts: hs_object_id DESCENDING, limit: 1`). -/
def bestMatch : List RemoteContact → Option RemoteContact
  | [] => none
  | c :: t =>
    match bestMatch t with
    | none => some c
    | some b => if b.rid ≥ c.rid then some b else some c

/-- The external CRM as a fetch oracle over `RemoteState` (v3 semantics,
see the section comment above).  Every response is 2xx; search results
carry `id` and no `vid`; endpoints other than search/create return an empty
2xx body. -/
def remoteFetch (st : RemoteState) (req : Request) : FetchOutcome × RemoteState :=
  match req with
  | Request.search email =>
    let found := st.contacts.filter (fun c => c.email == email)
    let top := (bestMatch found).map
      (fun c => ({ vid := none, id := some c.rid } : ContactObj))
    (FetchOutcome.respond true { results := some top.toList }, st)
  | Request.create props =>
    let newId := st.nextId
    (FetchOutcome.respond true { id := some newId },
      ⟨st.contacts ++ [⟨newId, (flatProp props "email").getD ""⟩], newId + 1⟩)
  | _ => (FetchOutcome.respond true {}, st)

/-- A stateless network behavior indexed by the global count of fetch
invocations made so far. -/
def counterOracle (f : Nat → FetchOutcome) : Nat → Request → FetchOutcome × Nat :=
  fun n _ => (f n, n + 1)

/-- The submission of spec §8 Scenario A/B. -/
def janeContact : HubSpotContact :=
  { email := "jane@example.com", firstName := some "Jane",
    lastName := some "Roe" }

end HubSpot

namespace HubSpot

example : isRetryableError ⟨"ECONNREFUSED"⟩ = true := by decide
example : isRetryableError ⟨"400 Bad Request"⟩ = false := by decide
example : isRetryableError ⟨"Request timeout after 10000ms"⟩ = true := by decide
example :
    (retryWithBackoff
      (fun (n : Nat) => ((Except.error ⟨"429"⟩ : Except Error Unit), n + 1))
      {} 0).1.attemptsMade = 3 := by decide

example :
    (syncContactToHubSpot remoteFetch (some "key") janeContact ⟨[], 1⟩).result
      = ⟨true, some 1, none⟩ := by decide

example :
    (syncContactToHubSpot remoteFetch (some "key") janeContact
      (syncContactToHubSpot remoteFetch (some "key") janeContact
        ⟨[], 1⟩).state).result = ⟨true, some 2, none⟩ := by decide

example :
    (syncContactToHubSpot remoteFetch (some "key") janeContact
      (syncContactToHubSpot remoteFetch (some "key") janeContact
        ⟨[], 1⟩).state).state.contacts.length = 2 := by decide

example :
    (syncContactToHubSpot
      (counterOracle (fun n =>
        if n < 2 then FetchOutcome.respond false { message := some "429 Too Many Requests" }
        else FetchOutcome.respond true { id := some 777 }))
      (some "key") janeContact 0)
      = ⟨⟨false, none, some "429 Too Many Requests"⟩, 2, [], 2⟩ := by decide

example :
    (syncContactToHubSpot
      (counterOracle (fun _ =>
        FetchOutcome.respond false { message := some "401 Unauthorized" }))
      (some "key") janeContact 0)
      = ⟨⟨false, none, some "401 Unauthorized"⟩, 2, [], 2⟩ := by decide

example :
    (syncContactToHubSpot
      (counterOracle (fun _ => FetchOutcome.respond true {}))
      (some "key") janeContact 0)
      = ⟨⟨true, none, none⟩, 2, [], 2⟩ := by decide

example :
    (syncContactToHubSpot
      (counterOracle (fun n =>
        if n == 0 then FetchOutcome.respond false { message := some "Internal Server Error (500)" }
        else FetchOutcome.respond true { id := some 12345 }))
      (some "key") janeContact 0)
      = ⟨⟨true, some 12345, none⟩, 2, [], 2⟩ := by decide

/-! ## Claims about the Resilient Call Executor (C4, C5, C10) -/

/-- C4: for every operation that always rejects with a retryable error,
`retryWithBackoff` with `maxAttempts = 3` invokes the operation exactly 3
times (attempt count 3, final state reached by exactly three invocations)
and the error it finally throws is exactly the error produced by the 3rd
attempt. -/
theorem c4_retry_exhaustion {σ T : Type} (op : σ → Except Error T × σ)
    (s0 : σ)
    (h : ∀ s, ∃ e, (op s).1 = Except.error e ∧ isRetryableError e = true) :
    (retryWithBackoff op { maxAttempts := some 3 } s0).1.attemptsMade = 3 ∧
    (retryWithBackoff op { maxAttempts := some 3 } s0).1.result
      = (op ((op ((op s0).2)).2)).1 ∧
    (retryWithBackoff op { maxAttempts := some 3 } s0).2
      = (op ((op ((op s0).2)).2)).2 := by
  obtain ⟨e0, h0, hr0⟩ := h s0
  obtain ⟨e1, h1, hr1⟩ := h ((op s0).2)
  obtain ⟨e2, h2, hr2⟩ := h ((op ((op s0).2)).2)
  have p0 : op s0 = (Except.error e0, (op s0).2) := Prod.ext h0 rfl
  have p1 : op ((op s0).2) = (Except.error e1, (op ((op s0).2)).2) :=
    Prod.ext h1 rfl
  have p2 : op ((op ((op s0).2)).2)
      = (Except.error e2, (op ((op ((op s0).2)).2)).2) := Prod.ext h2 rfl
  have key : retryWithBackoff op { maxAttempts := some 3 } s0
      = (⟨Except.error e2, 3, [2000, 4000]⟩, (op ((op ((op s0).2)).2)).2) := by
    calc retryWithBackoff op { maxAttempts := some 3 } s0
        = retryGo op 2000 3 0 none [] s0 := rfl
      _ = retryGo op 2000 2 1 (some e0) [2000] ((op s0).2) :=
          retryGo_succ_err_retry p0 hr0 (by decide)
      _ = retryGo op 2000 1 2 (some e1) [2000, 4000] ((op ((op s0).2)).2) :=
          retryGo_succ_err_retry p1 hr1 (by decide)
      _ = (⟨Except.error e2, 3, [2000, 4000]⟩, (op ((op ((op s0).2)).2)).2) :=
          retryGo_last_err p2
  rw [key, h2]
  exact ⟨rfl, rfl, rfl⟩

/-- Closed witness for `c4_retry_exhaustion`: a concrete operation that
always rejects with the retryable error `ECONNREFUSED`. -/
theorem c4_retry_exhaustion_witness :
    (∀ s : Nat, ∃ e, ((fun (n : Nat) =>
        ((Except.error ⟨"ECONNREFUSED"⟩ : Except Error Unit), n + 1)) s).1
          = Except.error e ∧ isRetryableError e = true) ∧
    (retryWithBackoff (fun (n : Nat) =>
        ((Except.error ⟨"ECONNREFUSED"⟩ : Except Error Unit), n + 1))
      { maxAttempts := some 3 } 0).1.attemptsMade = 3 :=
  ⟨fun s => ⟨⟨"ECONNREFUSED"⟩, rfl, by decide⟩,
   (c4_retry_exhaustion
     (fun (n : Nat) =>
       ((Except.error ⟨"ECONNREFUSED"⟩ : Except Error Unit), n + 1)) 0
     (fun s => ⟨⟨"ECONNREFUSED"⟩, rfl, by decide⟩)).1⟩

/-- C5 is false as stated: with configured `maxAttempts = 0`, an operation
rejecting with a 400-class (non-retryable) error is never invoked at all
(attempt count 0, state unchanged), and the rejected error is the fallback
`"Unknown error in retryWithBackoff"`, not the operation's error — refuting
"invokes the operation exactly once ... regardless of the configured
maxAttempts". -/
theorem c5_counterexample_zero_max_attempts :
    isRetryableError ⟨"400 Bad Request"⟩ = false ∧
    retryWithBackoff (fun (n : Nat) =>
        ((Except.error ⟨"400 Bad Request"⟩ : Except Error Unit), n + 1))
      { maxAttempts := some 0 } 0
      = (⟨Except.error ⟨"Unknown error in retryWithBackoff"⟩, 0, []⟩, 0) := by
  decide

/-- C5 (amended): for every configured `maxAttempts ≥ 1`, an operation whose
first attempt rejects with a non-retryable error is invoked exactly once,
and that error is rethrown immediately with no backoff wait. -/
theorem c5_nonretryable_short_circuit {σ T : Type}
    (op : σ → Except Error T × σ) (s0 : σ) (m : Int) (e : Error)
    (hm : 1 ≤ m) (h1 : (op s0).1 = Except.error e)
    (hr : isRetryableError e = false) :
    retryWithBackoff op { maxAttempts := some m } s0
      = (⟨Except.error e, 1, []⟩, (op s0).2) := by
  have p0 : op s0 = (Except.error e, (op s0).2) := Prod.ext h1 rfl
  have hk : m.toNat = (m.toNat - 1) + 1 := by omega
  calc retryWithBackoff op { maxAttempts := some m } s0
      = retryGo op 2000 m.toNat 0 none [] s0 := rfl
    _ = retryGo op 2000 ((m.toNat - 1) + 1) 0 none [] s0 := by rw [← hk]
    _ = (⟨Except.error e, 1, []⟩, (op s0).2) := retryGo_err_nonretryable p0 hr

/-- Closed witness for `c5_nonretryable_short_circuit` at `maxAttempts = 3`
with a concrete operation rejecting with a 400-class error. -/
theorem c5_nonretryable_short_circuit_witness :
    (1 : Int) ≤ 3 ∧
    isRetryableError ⟨"400 Bad Request"⟩ = false ∧
    retryWithBackoff (fun (n : Nat) =>
        ((Except.error ⟨"400 Bad Request"⟩ : Except Error Unit), n + 1))
      { maxAttempts := some 3 } 0
      = (⟨Except.error ⟨"400 Bad Request"⟩, 1, []⟩, 1) :=
  ⟨by decide, by decide,
   c5_nonretryable_short_circuit
     (fun (n : Nat) =>
       ((Except.error ⟨"400 Bad Request"⟩ : Except Error Unit), n + 1))
     0 3 ⟨"400 Bad Request"⟩ (by decide) rfl (by decide)⟩

/-- C10: if `retryWithBackoff` is configured with `maxAttempts ≤ 0`, the
loop body never runs: the operation is never invoked (attempt count 0,
state unchanged), no backoff wait happens, and the call rejects with the
fallback error `"Unknown error in retryWithBackoff"`. -/
theorem c10_nonpositive_max_attempts {σ T : Type}
    (op : σ → Except Error T × σ) (s0 : σ) (m : Int) (hm : m ≤ 0) :
    retryWithBackoff op { maxAttempts := some m } s0
      = (⟨Except.error ⟨"Unknown error in retryWithBackoff"⟩, 0, []⟩, s0) := by
  have hz : m.toNat = 0 := by omega
  simp only [retryWithBackoff, Option.getD_some, hz, retryGo, Option.getD_none]

/-- Closed witness for `c10_nonpositive_max_attempts` at `m = 0` with a
concrete operation. -/
theorem c10_nonpositive_max_attempts_witness :
    (0 : Int) ≤ 0 ∧
    retryWithBackoff
      (fun (n : Nat) => ((Except.error ⟨"ECONNREFUSED"⟩ : Except Error Unit), n + 1))
      { maxAttempts := some 0 } 0
      = (⟨Except.error ⟨"Unknown error in retryWithBackoff"⟩, 0, []⟩, 0) :=
  ⟨by decide,
   c10_nonpositive_max_attempts
     (fun (n : Nat) => ((Except.error ⟨"ECONNREFUSED"⟩ : Except Error Unit), n + 1))
     0 0 (by decide)⟩

/-! ## Claims about the Remote Contact Directory Client (C1-C3, C6-C9) -/

/-- When the first fetch invocation resolves (with any HTTP status), the
default-configured executor returns that response after exactly one
invocation and no backoff wait — an HTTP error status resolves the fetch
promise, so it is a wrapper-level success. -/
theorem fetchWithRetry_first_resolves {σ : Type}
    {f : σ → Request → FetchOutcome × σ} {req : Request} {s s1 : σ}
    {ok : Bool} {b : Body}
    (h : f s req = (FetchOutcome.respond ok b, s1)) :
    fetchWithRetry f req {} s = (⟨Except.ok ⟨ok, b⟩, 1, []⟩, s1) := by
  simp only [fetchWithRetry, retryWithBackoff, Option.getD_none,
    Int.toNat_ofNat]
  exact retryGo_succ_ok (by simp [h])

/-- C6: with the `HUBSPOT_API_KEY` credential absent,
`syncContactToHubSpot` returns the failure result whose error message
contains `"HUBSPOT_API_KEY"`, and performs no fetch invocation at all —
for every contact and every network behavior. -/
theorem c6_missing_credential_no_network_call {σ : Type}
    (fetchFn : σ → Request → FetchOutcome × σ)
    (contactData : HubSpotContact) (s : σ) :
    syncContactToHubSpot fetchFn none contactData s
      = ⟨⟨false, none,
          some "HUBSPOT_API_KEY environment variable is not set"⟩, 0, [], s⟩ ∧
    stringIncludes "HUBSPOT_API_KEY environment variable is not set"
      "HUBSPOT_API_KEY" = true :=
  ⟨rfl, by decide⟩

/-- Helper for C9: `createContact` always returns the discriminated union —
on failure the error field is populated. -/
theorem createContact_total {σ : Type}
    (fetchFn : σ → Request → FetchOutcome × σ)
    (properties : List (String × String)) (apiKey : String) (s : σ) :
    ((createContact fetchFn properties apiKey s).1.1.success = true) ∨
    ((createContact fetchFn properties apiKey s).1.1.success = false ∧
     ((createContact fetchFn properties apiKey s).1.1.error).isSome = true) := by
  unfold createContact
  rcases hx : fetchWithRetry fetchFn (Request.create properties) {} s
    with ⟨tr, s1⟩
  cases hres : tr.result with
  | error e => simp [hx, hres]
  | ok response =>
    cases hok : response.ok with
    | false => simp [hx, hres, hok]
    | true => simp [hx, hres, hok]

/-- Helper for C9: `updateContact` always returns the discriminated union —
on failure the error field is populated. -/
theorem updateContact_total {σ : Type}
    (fetchFn : σ → Request → FetchOutcome × σ) (vid : Nat)
    (properties : List (String × String)) (apiKey : String) (s : σ) :
    ((updateContact fetchFn vid properties apiKey s).1.1.success = true) ∨
    ((updateContact fetchFn vid properties apiKey s).1.1.success = false ∧
     ((updateContact fetchFn vid properties apiKey s).1.1.error).isSome = true) := by
  unfold updateContact
  rcases hx : fetchWithRetry fetchFn (Request.update vid properties) {} s
    with ⟨tr, s1⟩
  cases hres : tr.result with
  | error e => simp [hx, hres]
  | ok response =>
    cases hok : response.ok with
    | false => simp [hx, hres, hok]
    | true => simp [hx, hres, hok]

/-- C9: for every input contact, every credential state and every behavior
of the remote API (rejections, timeouts surfaced as rejections, any
response shape), `syncContactToHubSpot` returns normally with the
discriminated result union — success, or failure with the error message
populated; no exception escapes its boundary. -/
theorem c9_sync_never_throws {σ : Type}
    (fetchFn : σ → Request → FetchOutcome × σ) (env : Option String)
    (contactData : HubSpotContact) (s : σ) :
    ((syncContactToHubSpot fetchFn env contactData s).result.success = true) ∨
    ((syncContactToHubSpot fetchFn env contactData s).result.success = false ∧
     ((syncContactToHubSpot fetchFn env contactData s).result.error).isSome
       = true) := by
  unfold syncContactToHubSpot
  cases henv : getHubSpotApiKey env with
  | error err => simp [henv]
  | ok apiKey =>
    rcases hg : getContactByEmail fetchFn contactData.email apiKey s
      with ⟨⟨contact, tr1⟩, s1⟩
    cases hv : contact.bind ContactObj.vid with
    | none =>
      rcases hc : createContact fetchFn (buildProperties contactData) apiKey s1
        with ⟨⟨r, tr2⟩, s2⟩
      have := createContact_total fetchFn (buildProperties contactData) apiKey s1
      rw [hc] at this
      simpa [henv, hg, hv, hc] using this
    | some v =>
      cases hvz : v != 0 with
      | false =>
        rcases hc : createContact fetchFn (buildProperties contactData) apiKey s1
          with ⟨⟨r, tr2⟩, s2⟩
        have := createContact_total fetchFn (buildProperties contactData) apiKey s1
        rw [hc] at this
        simpa [henv, hg, hv, hvz, hc] using this
      | true =>
        rcases hu : updateContact fetchFn v (buildProperties contactData) apiKey s1
          with ⟨⟨r, tr2⟩, s2⟩
        have := updateContact_total fetchFn v (buildProperties contactData) apiKey s1
        rw [hu] at this
        simpa [henv, hg, hv, hvz, hu] using this

/-- C1 fails on the code: against the v3 remote model (search results carry
`id`, as in the repository's own test mocks), the first sync of
`jane@example.com` creates remote contact 1, but the second sequential sync
— whose lookup DOES return that contact — tests the legacy `vid` field,
finds it absent, and issues a SECOND create: the remote directory ends with
two contacts for the one email and the submission's remote identity changes
from 1 to 2. -/
theorem c1_second_sync_issues_second_create :
    (syncContactToHubSpot remoteFetch (some "key") janeContact
      ⟨[], 1⟩).result = ⟨true, some 1, none⟩ ∧
    (syncContactToHubSpot remoteFetch (some "key") janeContact
      (syncContactToHubSpot remoteFetch (some "key") janeContact
        ⟨[], 1⟩).state).result = ⟨true, some 2, none⟩ ∧
    (syncContactToHubSpot remoteFetch (some "key") janeContact
      (syncContactToHubSpot remoteFetch (some "key") janeContact
        ⟨[], 1⟩).state).state.contacts
      = [⟨1, "jane@example.com"⟩, ⟨2, "jane@example.com"⟩] := by
  decide

/-- C2 fails on the code: an HTTP 429 RESOLVES the fetch promise, so the
executor returns the 429 response as a first-attempt success and
`isRetryableError` is never consulted; with the remote answering 429 on the
first two invocations and 200 afterwards, the sync makes only two fetch
invocations (lookup swallowed to null, then create), performs no backoff
wait at all, and fails — instead of retrying with 2000 ms and 4000 ms waits
and succeeding on the third attempt. -/
theorem c2_http_429_never_retried :
    (syncContactToHubSpot
      (counterOracle (fun n =>
        if n < 2 then
          FetchOutcome.respond false { message := some "429 Too Many Requests" }
        else FetchOutcome.respond true { id := some 777 }))
      (some "key") janeContact 0)
      = ⟨⟨false, none, some "429 Too Many Requests"⟩, 2, [], 2⟩ ∧
    isRetryableError ⟨"429 Too Many Requests"⟩ = true := by
  decide

/-- C3 is false as stated: with the remote answering HTTP 401 to every
call, `syncContactToHubSpot` makes TWO network calls, not exactly one —
the 401 lookup response is swallowed as "not found" and a create is then
attempted. -/
theorem c3_counterexample_two_network_calls :
    (syncContactToHubSpot
      (counterOracle (fun _ =>
        FetchOutcome.respond false { message := some "401 Unauthorized" }))
      (some "key") janeContact 0).fetches = 2 := by
  decide

/-- C3 (amended): when the remote API returns HTTP 401 (a resolved non-2xx
response carrying a non-empty message) on every call,
`syncContactToHubSpot` fails without any retry and without any backoff
wait, but only after exactly TWO network calls: the 401 lookup response is
treated as contact-not-found, a create is then attempted, and the result
carries the create call's remote error message. -/
theorem c3_amended_401_two_calls_no_retry (msg : String)
    (hmsg : msg.isEmpty = false) (contactData : HubSpotContact) :
    syncContactToHubSpot
      (counterOracle (fun _ =>
        FetchOutcome.respond false { message := some msg }))
      (some "key") contactData 0
      = ⟨⟨false, none, some msg⟩, 2, [], 2⟩ := by
  have h1 : fetchWithRetry
      (counterOracle (fun _ =>
        FetchOutcome.respond false { message := some msg }))
      (Request.search contactData.email) {} 0
      = (⟨Except.ok ⟨false, { message := some msg }⟩, 1, []⟩, 1) :=
    fetchWithRetry_first_resolves rfl
  have h2 : fetchWithRetry
      (counterOracle (fun _ =>
        FetchOutcome.respond false { message := some msg }))
      (Request.create (buildProperties contactData)) {} 1
      = (⟨Except.ok ⟨false, { message := some msg }⟩, 1, []⟩, 2) :=
    fetchWithRetry_first_resolves rfl
  unfold syncContactToHubSpot getContactByEmail createContact
  rw [show getHubSpotApiKey (some "key") = Except.ok "key" from rfl]
  rw [h1]
  simp only [Bool.not_false, if_true]
  rw [h2]
  simp [jsOrString, hmsg]

/-- Closed witness for `c3_amended_401_two_calls_no_retry` at the concrete
remote message "401 Unauthorized" and Scenario B's submission. -/
theorem c3_amended_401_two_calls_no_retry_witness :
    ("401 Unauthorized").isEmpty = false ∧
    syncContactToHubSpot
      (counterOracle (fun _ =>
        FetchOutcome.respond false { message := some "401 Unauthorized" }))
      (some "key") janeContact 0
      = ⟨⟨false, none, some "401 Unauthorized"⟩, 2, [], 2⟩ :=
  ⟨by decide,
   c3_amended_401_two_calls_no_retry "401 Unauthorized" (by decide)
     janeContact⟩

/-- C7 is false as stated for the lookup operation: a non-2xx response to
the search is swallowed into a null ("not found") result instead of a
failure carrying the remote message — and the sync as a whole can then even
report success via the ensuing create. -/
theorem c7_counterexample_lookup_swallows_non2xx :
    (syncContactToHubSpot
      (counterOracle (fun n =>
        if n == 0 then
          FetchOutcome.respond false
            { message := some "Internal Server Error (500)" }
        else FetchOutcome.respond true { id := some 12345 }))
      (some "key") janeContact 0)
      = ⟨⟨true, some 12345, none⟩, 2, [], 2⟩ := by
  decide

/-- C7 (amended): for the create, update, add-to-list, create-deal and
log-activity operations, an HTTP non-2xx remote response yields a failure
result carrying the remote body's (non-empty) `message`; the lookup
operation instead maps every non-2xx response to a null ("not found")
result. -/
theorem c7_amended_non2xx_failure_semantics
    {σa σb σc σd σe σf : Type}
    (fa : σa → Request → FetchOutcome × σa) (sa ta : σa)
    (email apiKey : String) (ba : Body)
    (ha : ∀ req, fa sa req = (FetchOutcome.respond false ba, ta))
    (fb : σb → Request → FetchOutcome × σb) (sb tb : σb)
    (props : List (String × String)) (bb : Body) (msgb : String)
    (hb : ∀ req, fb sb req = (FetchOutcome.respond false bb, tb))
    (hbm : bb.message = some msgb) (hbe : msgb.isEmpty = false)
    (fc : σc → Request → FetchOutcome × σc) (sc tc : σc) (v : Nat)
    (bc : Body) (msgc : String)
    (hc : ∀ req, fc sc req = (FetchOutcome.respond false bc, tc))
    (hcm : bc.message = some msgc) (hce : msgc.isEmpty = false)
    (fd : σd → Request → FetchOutcome × σd) (sd td : σd) (listId : String)
    (bd : Body) (msgd : String)
    (hd : ∀ req, fd sd req = (FetchOutcome.respond false bd, td))
    (hdm : bd.message = some msgd) (hde : msgd.isEmpty = false)
    (fe : σe → Request → FetchOutcome × σe) (se te : σe)
    (dealData : DealData) (be : Body) (msge : String)
    (he : ∀ req, fe se req = (FetchOutcome.respond false be, te))
    (hem : be.message = some msge) (hee : msge.isEmpty = false)
    (ff : σf → Request → FetchOutcome × σf) (sf tf uf : σf)
    (activityData : ActivityData) (w : Nat) (bf : Body) (msgf : String)
    (hf1 : ff sf (Request.search activityData.email)
      = (FetchOutcome.respond true
          { results := some [{ vid := some w, id := none }] }, tf))
    (hw : (w != 0) = true)
    (hf2 : ∀ req, ff tf req = (FetchOutcome.respond false bf, uf))
    (hfm : bf.message = some msgf) (hfe : msgf.isEmpty = false) :
    (getContactByEmail fa email apiKey sa).1.1 = none ∧
    (createContact fb props apiKey sb).1.1 = ⟨false, none, some msgb⟩ ∧
    (updateContact fc v props apiKey sc).1.1 = ⟨false, none, some msgc⟩ ∧
    (addContactToList fd (some "key") email listId sd).1.1
      = ⟨false, some msgd⟩ ∧
    (createHubSpotDeal fe (some "key") dealData se).1.1
      = ⟨false, none, some msge⟩ ∧
    (logActivityToHubSpot ff (some "key") activityData sf).1.1
      = ⟨false, some msgf⟩ := by
  refine ⟨?_, ?_, ?_, ?_, ?_, ?_⟩
  · unfold getContactByEmail
    rw [fetchWithRetry_first_resolves (ha _)]
    simp
  · unfold createContact
    rw [fetchWithRetry_first_resolves (hb _)]
    simp [hbm, jsOrString, hbe]
  · unfold updateContact
    rw [fetchWithRetry_first_resolves (hc _)]
    simp [hcm, jsOrString, hce]
  · unfold addContactToList
    rw [show getHubSpotApiKey (some "key") = Except.ok "key" from rfl]
    rw [fetchWithRetry_first_resolves (hd _)]
    simp [hdm, jsOrString, hde]
  · unfold createHubSpotDeal
    rw [show getHubSpotApiKey (some "key") = Except.ok "key" from rfl]
    simp only []
    rw [fetchWithRetry_first_resolves (he _)]
    simp [hem, jsOrString, hee]
  · have hlook : getContactByEmail ff activityData.email "key" sf
        = ((some { vid := some w, id := none },
            ⟨Except.ok ⟨true, { results := some [{ vid := some w, id := none }] }⟩,
             1, []⟩), tf) := by
      unfold getContactByEmail
      rw [fetchWithRetry_first_resolves hf1]
      simp
    unfold logActivityToHubSpot
    rw [show getHubSpotApiKey (some "key") = Except.ok "key" from rfl]
    simp only []
    rw [hlook]
    simp only [Option.some_bind, hw, if_true]
    rw [fetchWithRetry_first_resolves (hf2 _)]
    simp [hfm, jsOrString, hfe]

/-- The constant non-2xx remote used by the C7 amended-claim witness. -/
def errBody : Body := { message := some "boom" }

/-- Oracle that answers every request with a non-2xx `errBody` response. -/
def constErrOracle : Unit → Request → FetchOutcome × Unit :=
  fun _ _ => (FetchOutcome.respond false errBody, ())

/-- Oracle whose first state answers searches with one contact (vid 7) and
whose second state answers every request with a non-2xx `errBody`. -/
def noteFailOracle : Bool → Request → FetchOutcome × Bool :=
  fun st _ =>
    if st then (FetchOutcome.respond false errBody, true)
    else (FetchOutcome.respond true
      { results := some [{ vid := some 7, id := none }] }, true)

/-- Closed witness for `c7_amended_non2xx_failure_semantics` on concrete
oracles. -/
theorem c7_amended_non2xx_failure_semantics_witness :
    (getContactByEmail constErrOracle "a@b.c" "key" ()).1.1 = none ∧
    (createContact constErrOracle [("email", "a@b.c")] "key" ()).1.1
      = ⟨false, none, some "boom"⟩ ∧
    (updateContact constErrOracle 5 [("email", "a@b.c")] "key" ()).1.1
      = ⟨false, none, some "boom"⟩ ∧
    (addContactToList constErrOracle (some "key") "a@b.c" "L1" ()).1.1
      = ⟨false, some "boom"⟩ ∧
    (createHubSpotDeal constErrOracle (some "key")
      ⟨"a@b.c", "Deal", none, none, none⟩ ()).1.1
      = ⟨false, none, some "boom"⟩ ∧
    (logActivityToHubSpot noteFailOracle (some "key")
      ⟨"a@b.c", "form", "hi"⟩ false).1.1
      = ⟨false, some "boom"⟩ :=
  c7_amended_non2xx_failure_semantics
    constErrOracle () () "a@b.c" "key" errBody (fun req => rfl)
    constErrOracle () () [("email", "a@b.c")] errBody "boom"
      (fun req => rfl) rfl rfl
    constErrOracle () () 5 errBody "boom" (fun req => rfl) rfl rfl
    constErrOracle () () "L1" errBody "boom" (fun req => rfl) rfl rfl
    constErrOracle () () ⟨"a@b.c", "Deal", none, none, none⟩ errBody "boom"
      (fun req => rfl) rfl rfl
    noteFailOracle false true true ⟨"a@b.c", "form", "hi"⟩ 7 errBody "boom"
      rfl rfl (fun req => rfl) rfl rfl

/-- C8 fails on the code: with every remote response 2xx but bodies missing
the expected fields (an empty search body and a create body without `id`),
`syncContactToHubSpot` reports `success = true` with no remote id at all —
the code never validates the create response's `id` field.  The
repository's own test "should handle malformed responses" expects
`success = false` here. -/
theorem c8_ok_response_without_id_reports_success :
    (syncContactToHubSpot
      (counterOracle (fun _ => FetchOutcome.respond true {}))
      (some "key") janeContact 0)
      = ⟨⟨true, none, none⟩, 2, [], 2⟩ := by
  decide

end HubSpot
